import Mathlib

/-!
Verification development for the Wapiti vulnerability-scanner repository.

Part 1 models the context-aware reflected-injection (XSS) detection engine.
The engine itself (`wapitiCore/attack/mod_xss.py`) is not present in the
source tree — only its test suite (`tests/attack/test_mod_xss_advanced.py`)
is — so the oracle, classifier, synthesizer, verifier and orchestrator are
modelled from the specification (each such definition carries a
`Modelled from the spec:` doc comment).

Part 2 embeds the fingerprinting modules that are present in the source
tree: `attack/network_devices/mod_forti.py`, `attack/network_devices/mod_citrix.py`,
`attack/cms/mod_wp_enum.py` and `attack/cms/mod_spip_enum.py`.
-/

namespace Wapiti

/-- Single-quote character, written numerically. -/
def squote : Char := Char.ofNat 39

/-- ASCII whitespace as used in HTML markup scanning. -/
def isSpaceChar (c : Char) : Bool :=
  c = ' ' || c = Char.ofNat 10 || c = Char.ofNat 9 || c = Char.ofNat 13

/-- Characters that may be part of an HTML tag name slot
(anything but whitespace, the tag terminator and the self-close slash). -/
def isNameChar (c : Char) : Bool :=
  !(isSpaceChar c || c = '>' || c = '/')

/-- Does `pat` occur in `hay` starting at index `i`? -/
def occAt (hay pat : List Char) (i : Nat) : Bool :=
  pat.isPrefixOf (hay.drop i)

/-- Index of the first occurrence of `pat` inside `hay`, if any. -/
def firstIdx (hay pat : List Char) : Option Nat :=
  ((List.range (hay.length + 1)).filter (occAt hay pat)).head?

/-- Index of the last occurrence of `pat` inside `hay`, if any. -/
def lastOcc (hay pat : List Char) : Option Nat :=
  ((List.range (hay.length + 1)).filter (occAt hay pat)).getLast?

/-- Index of the last occurrence of character `c` inside `l`, if any. -/
def lastIdxOf (l : List Char) (c : Char) : Option Nat := lastOcc l [c]

/-- Substring test on strings (Python's `sub in s`). -/
def containsStr (s sub : String) : Bool := (firstIdx s.toList sub.toList).isSome

/-- Scanner: does `l` contain a `>` that closes no previously opened `<`? -/
def unmatchedGtAux : List Char → Bool → Bool
  | [], _ => false
  | c :: t, inTag =>
    if c = '<' then unmatchedGtAux t true
    else if c = '>' then (if inTag then unmatchedGtAux t false else true)
    else unmatchedGtAux t inTag

/-- Stray tag-closing fragment detector: a `>` with no matching `<` before it. -/
def unmatchedGt (l : List Char) : Bool := unmatchedGtAux l false

/-- Drop trailing whitespace. -/
def rstripSpaces (l : List Char) : List Char :=
  (l.reverse.dropWhile isSpaceChar).reverse

/-- Is the scan position inside an unterminated `<!-- ... -->` comment? -/
def openComment (pre : List Char) : Bool :=
  match lastOcc pre "<!--".toList, lastOcc pre "-->".toList with
  | some a, some b => decide (b < a)
  | some _, none => true
  | _, _ => false

/-! ### Reflection contexts (spec section 3 and 4.2) -/

/-- Quote style of an attribute value: unquoted, single-quoted or double-quoted. -/
inductive QuoteStyle
  | qnone
  | single
  | double
  deriving DecidableEq, Repr

/-- Modelled from the spec: the tagged variant set of Reflection Context
(section 3) used by the missing `mod_xss` classifier.  The FILTERED condition
is an auxiliary flag carried separately (see `filteredFlag`). -/
inductive ContextKind
  | PLAIN_TEXT
  | TITLE_TEXT
  | TAG_NAME
  | PARTIAL_TAG_NAME
  | ATTRIBUTE_VALUE (q : QuoteStyle)
  | SCRIPT_BODY
  | COMMENT
  | UNKNOWN
  deriving DecidableEq, Repr

/-- Modelled from the spec: `classify(body, offset)` of the missing `mod_xss`
Context Classifier (section 4.2).  A backward scan of the markup before the
offset decides the enclosing syntactic context; the rightmost unmatched
opening token before the offset wins. -/
def classify (body : List Char) (offset : Nat) : ContextKind :=
  let pre := body.take offset
  if openComment pre then .COMMENT
  else
    match lastIdxOf pre '<' with
    | none => .PLAIN_TEXT
    | some j =>
      let seg := pre.drop (j + 1)
      if seg.contains '>' then
        -- the last markup tag before the offset is closed: we are in text content
        let nm := seg.takeWhile isNameChar
        if nm = "title".toList then .TITLE_TEXT
        else if nm = "script".toList then .SCRIPT_BODY
        else .PLAIN_TEXT
      else
        -- the offset sits inside an open tag
        let seg2 := if seg.head? = some '/' then seg.tail else seg
        if seg2.all (fun c => isNameChar c && !(c = '=') && !(c = '"') && !(c = squote)) then
          if unmatchedGt (pre.take j) then .PARTIAL_TAG_NAME else .TAG_NAME
        else
          match pre.getLast? with
          | some q =>
            if q = squote then .ATTRIBUTE_VALUE .single
            else if q = '"' then .ATTRIBUTE_VALUE .double
            else if (rstripSpaces pre).getLast? = some '=' then .ATTRIBUTE_VALUE .qnone
            else .UNKNOWN
          | none => .UNKNOWN

/-! ### Payload synthesizer (spec section 4.3) -/

/-- A breakout payload template together with its verification signature
(the literal prefix checked unescaped in the response). -/
structure PayloadCandidate where
  template : List Char
  signature : List Char
  deriving DecidableEq, Repr

/-- Modelled from the spec: PLAIN_TEXT / unquoted-attribute breakout template. -/
def plainCandidate : PayloadCandidate :=
  ⟨"><script>alert(1)</script>".toList, "><script>".toList⟩

/-- Modelled from the spec: TITLE_TEXT breakout template. -/
def titleCandidate : PayloadCandidate :=
  ⟨"</title><script>alert(1)</script>".toList, "</title>".toList⟩

/-- Modelled from the spec: TAG_NAME breakout template. -/
def tagNameCandidate : PayloadCandidate :=
  ⟨"script>alert(1)</script".toList, "script>".toList⟩

/-- Modelled from the spec: PARTIAL_TAG_NAME breakout template. -/
def partialTagCandidate : PayloadCandidate :=
  ⟨"/><script>alert(1)</script>".toList, "/><script>".toList⟩

/-- Modelled from the spec: single-quoted attribute breakout template. -/
def attrSingleCandidate : PayloadCandidate :=
  ⟨squote :: "></pre><script>alert(1)</script>".toList, squote :: "></pre>".toList⟩

/-- Modelled from the spec: double-quoted attribute breakout template. -/
def attrDoubleCandidate : PayloadCandidate :=
  ⟨"\"></pre><script>alert(1)</script>".toList, "\"></pre>".toList⟩

/-- Modelled from the spec: SCRIPT_BODY breakout template. -/
def scriptBodyCandidate : PayloadCandidate :=
  ⟨";alert(1);//".toList, ";alert(1)".toList⟩

/-- Modelled from the spec: the non-`<script` substitute vector used when the
FILTERED flag is set. -/
def svgCandidate : PayloadCandidate :=
  ⟨"<svg onload=alert(1)>".toList, "<svg".toList⟩

/-- Modelled from the spec: the context-to-template decision table of the
Payload Synthesizer (section 4.3).  COMMENT and UNKNOWN fall back to the
PLAIN_TEXT template set (section 7, ClassificationUnknown). -/
def templateFor : ContextKind → PayloadCandidate
  | .TITLE_TEXT => titleCandidate
  | .TAG_NAME => tagNameCandidate
  | .PARTIAL_TAG_NAME => partialTagCandidate
  | .ATTRIBUTE_VALUE .single => attrSingleCandidate
  | .ATTRIBUTE_VALUE .double => attrDoubleCandidate
  | .ATTRIBUTE_VALUE .qnone => plainCandidate
  | .SCRIPT_BODY => scriptBodyCandidate
  | .PLAIN_TEXT => plainCandidate
  | .COMMENT => plainCandidate
  | .UNKNOWN => plainCandidate

/-- Modelled from the spec: `synthesize(context)` of the missing `mod_xss`
Payload Synthesizer.  When the FILTERED flag is set the non-`<script` vector
is substituted for the tag-based template, taking priority whatever the
classified context is. -/
def synthesize (k : ContextKind) (filtered : Bool) : List PayloadCandidate :=
  if filtered then [svgCandidate] else [templateFor k]

/-! ### Oracle, verifier and orchestrator (spec sections 4.1, 4.4, 4.5) -/

/-- A target endpoint, observed through one attackable parameter: maps the
value injected for that parameter to the response body (`none` models a
transport error). -/
def Page : Type := List Char → Option (List Char)

/-- Modelled from the spec: the verdict type of the Discriminant Oracle
(section 4.1).  REFLECTED carries the first token's response body and the
byte offset of the match for the next stage. -/
inductive ReflectionVerdict
  | NOT_REFLECTED
  | INCONCLUSIVE
  | REFLECTED (body : List Char) (offset : Nat)
  deriving DecidableEq, Repr

/-- Modelled from the spec: the tie-break policy of the Discriminant Oracle
(section 4.1) on the two response bodies: neither token found —
NOT_REFLECTED; exactly one found — INCONCLUSIVE (false-positive guard);
both found at structurally different contexts — INCONCLUSIVE; both found at
the same structural context — REFLECTED, carrying the first token's
response body and match offset. -/
def tokenCompare (t1 t2 b1 b2 : List Char) : ReflectionVerdict :=
  match firstIdx b1 t1, firstIdx b2 t2 with
  | some i1, some i2 =>
    if classify b1 i1 = classify b2 i2 then .REFLECTED b1 i1 else .INCONCLUSIVE
  | none, none => .NOT_REFLECTED
  | _, _ => .INCONCLUSIVE

/-- Modelled from the spec: a transport error on either probe request yields
INCONCLUSIVE (section 4.1). -/
def oracleCompare (t1 t2 : List Char) :
    Option (List Char) → Option (List Char) → ReflectionVerdict
  | some b1, some b2 => tokenCompare t1 t2 b1 b2
  | _, _ => .INCONCLUSIVE

/-- Modelled from the spec: `probe(request, parameter)` of the missing
`mod_xss` Discriminant Oracle (section 4.1).  Two distinct random tokens
are sent for the parameter and the two responses are compared. -/
def probe (page : Page) (t1 t2 : List Char) : ReflectionVerdict :=
  oracleCompare t1 t2 (page t1) (page t2)

/-- Modelled from the spec: the FILTERED auxiliary condition (sections 3 and
4.2) — the target strips the literal substring `<script` from reflections.
A probe value carrying `<script` is sent; the flag is set when the response
still reflects the token but the literal `<script` appears nowhere in it. -/
def filteredFlag (page : Page) (t : List Char) : Bool :=
  match page ("<script".toList ++ t) with
  | some b => (firstIdx b "<script".toList).isNone && (firstIdx b t).isSome
  | none => false

/-- Modelled from the spec: `verify(request, parameter, candidate)` of the
missing `mod_xss` Verifier (section 4.4).  The candidate's full payload is
sent and the response is scanned for the verification signature appearing
verbatim and unescaped; an entity-encoded rendering does not contain the
literal signature, so it fails.  A transport error returns false. -/
def verify (page : Page) (c : PayloadCandidate) : Bool :=
  match page c.template with
  | some b => (firstIdx b c.signature).isSome
  | none => false

/-- A confirmed vulnerability report for one parameter. -/
structure Finding where
  param : String
  value : List Char
  deriving DecidableEq, Repr

/-- Modelled from the spec: the per-parameter pipeline of the missing
`mod_xss` Injection Attack Orchestrator (section 4.5): oracle, then
classifier, then synthesizer, then verifier on each candidate in order,
stopping at the first verified candidate; any non-REFLECTED verdict or
exhausted candidate list yields no Finding. -/
def attackFrom (param : String) (page : Page) (t1 : List Char) :
    ReflectionVerdict → Option Finding
  | .REFLECTED b i =>
    match (synthesize (classify b i) (filteredFlag page t1)).find? (fun c => verify page c) with
    | some c => some ⟨param, c.template⟩
    | none => none
  | _ => none

/-- Modelled from the spec: the orchestrator dispatch on the oracle verdict
(section 4.5). -/
def attackParam (param : String) (page : Page) (t1 t2 : List Char) : Option Finding :=
  attackFrom param page t1 (probe page t1 t2)

/-! ### Part 2: fingerprinting modules present in the source tree -/

/-- Python exception classes relevant to the embedded modules:
`httpx.RequestError` (caught by the modules) and `TypeError` (raised by
`re.search` or the `in` operator when handed `None`, caught nowhere). -/
inductive PyExc
  | requestError
  | typeError
  deriving DecidableEq, Repr

/-- Word characters of the regex class `\w` over the ASCII range. -/
def isWordChar (c : Char) : Bool := c.isAlphanum || c = '_'

/-- Does the regex `Forti\w+` match `s` at index `i`?  (`\w+` needs at least
one word character after the literal `Forti`.) -/
def fortiMatchAt (s : List Char) (i : Nat) : Bool :=
  "Forti".toList.isPrefixOf (s.drop i)
    && (match (s.drop (i + 5)).head? with
        | some c => isWordChar c
        | none => false)

/-- Leftmost match of `re.compile(r'Forti\w+').search`: the literal `Forti`
followed by the maximal run of word characters. -/
def fortiSearch (s : List Char) : Option (List Char) :=
  match ((List.range (s.length + 1)).filter (fortiMatchAt s)).head? with
  | some i => some ("Forti".toList ++ (s.drop (i + 5)).takeWhile isWordChar)
  | none => none

/-- The parsed pieces of a response body that `mod_forti.py` inspects via
BeautifulSoup: `soup.title` (outer `Option`: tag present?) with its
`.string` (inner `Option`: `None` when the tag has no single string child),
the `(tag.string, tag.text)` pairs of `soup.find_all(True)`, and the text of
the `div` with class `sign-in-header` when present. -/
structure FortiDoc where
  title : Option (Option String)
  tagStrings : List (Option String × String)
  signInDiv : Option String
  deriving DecidableEq, Repr

/-- The response fields `mod_forti.py` reads: `is_success`, whether
`"content-type" in headers and "javascript" in headers["content-type"]`,
and the parsed body. -/
structure FortiResp where
  is_success : Bool
  ctJavascript : Bool
  doc : FortiDoc
  deriving DecidableEq, Repr

/-- Result of one transport call (`RequestError` or a response). -/
inductive NetResult
  | err
  | ok (r : FortiResp)
  deriving DecidableEq, Repr

/-- The transport boundary seen by `mod_forti.py`: a function of the probed
URL and the `follow_redirects` flag. -/
def FortiNet : Type := String → Bool → NetResult

/-- Mutable attribute state of a `ModuleForti` instance: the `finished` flag
of the attack base class and the class-level `network_errors`, `device_name`
and `version` fields, plus the additions recorded through the persister. -/
structure FortiSt where
  finished : Bool
  network_errors : Nat
  device_name : String
  version : String
  additions : List String
  deriving DecidableEq, Repr

/-- Outcome of an embedded Python call: a return value with the state after
the call, or a propagating exception with the state at the raise point. -/
inductive PyResult (α : Type)
  | ok (a : α) (s : FortiSt)
  | exc (e : PyExc) (s : FortiSt)
  deriving DecidableEq, Repr

/-- `urljoin(base, item)` for a base URL ending in `/` and a relative item,
as produced by the module's check lists. -/
def urljoinRel (base item : String) : String := base ++ item

/-- The `fortivpn_list` of `ModuleForti.check_forti`. -/
def fortivpnList : List String :=
  ["remote/fgt_lang?lang=en", "remote/fgt_lang?lang=fr"]

/-- The `fortiweb_list` of `ModuleForti.check_forti`. -/
def fortiwebList : List String :=
  ["fgt_lang.js?paths=lang/en:com_info", "fgt_lang.js?paths=lang/fr:com_info"]

/-- The full `check_list` of `ModuleForti.check_forti`. -/
def fortiCheckList : List String :=
  fortivpnList ++ fortiwebList ++
    ["logindisclaimer", "remote/login?lang=en", "remote/login?lang=fr",
     "fpc/app/login", "login/?next=/"]

/-- Embeds `ModuleForti.detect_forti_product` (mod_forti.py lines 119-142).
The response status is never checked; when the title tag exists,
`fortinet_pattern.search(title_tag.string)` is called, and a `None` string
(title with no string content) makes `re.search` raise `TypeError`. -/
def detect_forti_product (net : FortiNet) (url : String) (s : FortiSt) : PyResult Bool :=
  match net url true with
  | .err => .exc .requestError { s with network_errors := s.network_errors + 1 }
  | .ok resp =>
    match resp.doc.title with
    | none => .ok false s
    | some none => .exc .typeError s
    | some (some t) =>
      match fortiSearch t.toList with
      | some g => .ok true { s with device_name := String.mk g }
      | none => .ok false s

/-- Embeds the `for item in check_list` loop of `ModuleForti.check_forti`
(mod_forti.py lines 35-54).  The loop returns `some verdict` through
`return`, or `none` when it runs to completion. -/
def forti_items_loop (net : FortiNet) (url : String) :
    List String → FortiSt → PyResult (Option Bool)
  | [], s => .ok none s
  | item :: rest, s =>
    match net (urljoinRel url item) false with
    | .err => forti_items_loop net url rest { s with network_errors := s.network_errors + 1 }
    | .ok resp =>
      if resp.is_success then
        if resp.ctJavascript && fortivpnList.contains item then
          .ok (some true) { s with device_name := "Fortinet SSL-VPN" }
        else if resp.ctJavascript && fortiwebList.contains item then
          .ok (some true) { s with device_name := "FortiWeb" }
        else
          match detect_forti_product net (urljoinRel url item) s with
          | .ok b s2 => .ok (some b) s2
          | .exc e s2 => .exc e s2
      else forti_items_loop net url rest s

/-- Embeds the `for tag in soup.find_all(True)` loop of the FortiMail check
(mod_forti.py lines 86-92): when `tag.string` is truthy, the Fortinet
pattern is searched in `tag.text`. -/
def forti_tags_loop : List (Option String × String) → FortiSt → PyResult (Option Bool)
  | [], s => .ok none s
  | (tagString, tagText) :: rest, s =>
    if (match tagString with | some ts => ts != "" | none => false) then
      match fortiSearch tagText.toList with
      | some g => .ok (some true) { s with device_name := String.mk g }
      | none => forti_tags_loop rest s
    else forti_tags_loop rest s

/-- Embeds the `for device_name in ["FortiManager", "FortiAnalyzer"]` loop of
the FortiManager/FortiAnalyzer check (mod_forti.py lines 108-116).  When a
title tag exists, `device_name in title_tag.string` raises `TypeError` if
the string is `None`; otherwise the sign-in-header div is consulted (a bs4
tag is always truthy, so presence alone selects the branch). -/
def forti_manager_loop (title : Option (Option String)) (div : Option String) :
    List String → FortiSt → PyResult Bool
  | [], s => .ok false s
  | dn :: rest, s =>
    match title with
    | some none => .exc .typeError s
    | some (some t) =>
      if containsStr t dn then .ok true { s with device_name := dn }
      else
        match div with
        | some d =>
          if containsStr d dn then .ok true { s with device_name := dn }
          else forti_manager_loop title div rest s
        | none => forti_manager_loop title div rest s
    | none =>
      match div with
      | some d =>
        if containsStr d dn then .ok true { s with device_name := dn }
        else forti_manager_loop title div rest s
      | none => forti_manager_loop title div rest s

/-- Embeds the FortiManager/FortiAnalyzer check at `p/login/`
(mod_forti.py lines 94-117); a `RequestError` increments the counter and
re-raises. -/
def forti_phase4 (net : FortiNet) (url : String) (s : FortiSt) : PyResult Bool :=
  match net (urljoinRel url "p/login/") false with
  | .err => .exc .requestError { s with network_errors := s.network_errors + 1 }
  | .ok resp =>
    if resp.is_success then
      forti_manager_loop resp.doc.title resp.doc.signInDiv
        ["FortiManager", "FortiAnalyzer"] s
    else .ok false s

/-- Embeds the FortiMail check at `admin/` (mod_forti.py lines 75-92). -/
def forti_phase3 (net : FortiNet) (url : String) (s : FortiSt) : PyResult Bool :=
  match net (urljoinRel url "admin/") false with
  | .err => .exc .requestError { s with network_errors := s.network_errors + 1 }
  | .ok resp =>
    if resp.is_success then
      match forti_tags_loop resp.doc.tagStrings s with
      | .ok (some b) s2 => .ok b s2
      | .ok none s2 => forti_phase4 net url s2
      | .exc e s2 => .exc e s2
    else forti_phase4 net url s

/-- Embeds the title check at the root URL (mod_forti.py lines 56-73): the
guard `if title and "Forti" in title` skips empty and `None` titles. -/
def forti_phase2 (net : FortiNet) (url : String) (s : FortiSt) : PyResult Bool :=
  match net url false with
  | .err => .exc .requestError { s with network_errors := s.network_errors + 1 }
  | .ok resp =>
    if resp.is_success then
      match resp.doc.title with
      | some (some t) =>
        if t ≠ "" && containsStr t "Forti" then .ok true { s with device_name := t }
        else forti_phase3 net url s
      | _ => forti_phase3 net url s
    else forti_phase3 net url s

/-- Embeds `ModuleForti.check_forti` (mod_forti.py lines 24-117). -/
def check_forti (net : FortiNet) (url : String) (s : FortiSt) : PyResult Bool :=
  match forti_items_loop net url fortiCheckList s with
  | .ok (some b) s2 => .ok b s2
  | .ok none s2 => forti_phase2 net url s2
  | .exc e s2 => .exc e s2

/-- The tail of `ModuleForti.attack`: a detection records one addition
through the persister, and only `RequestError` is caught (counted, logged,
non-fatal); any other exception propagates out of `attack`. -/
def fortiFinish : PyResult Bool → PyResult Bool
  | .ok true s => .ok true { s with additions := s.additions ++ ["Fortinet"] }
  | .ok false s => .ok false s
  | .exc .requestError s => .ok false { s with network_errors := s.network_errors + 1 }
  | .exc .typeError s => .exc .typeError s

/-- Embeds `ModuleForti.attack` (mod_forti.py lines 144-173): `finished` is
set first, then `check_forti` runs inside `try` and its outcome is handled
by `fortiFinish`. -/
def forti_attack (net : FortiNet) (url : String) (s0 : FortiSt) : PyResult Bool :=
  fortiFinish (check_forti net url { s0 with finished := true })

/-- The `finished` flag of a `PyResult` final state, whether the call
returned or raised. -/
def finishedOf {α : Type} : PyResult α → Bool
  | .ok _ s => s.finished
  | .exc _ s => s.finished

/-! ### ModuleCitrix (mod_citrix.py) -/

/-- The pieces of `soup.title` that `mod_citrix.py` reads: the `class`
attribute (a whitespace-split token list when present) and the tag's
`.text`. -/
structure TitleTag where
  classAttr : Option (List String)
  text : String
  deriving DecidableEq, Repr

/-- Semantics of `re.search(r"^_ctxstxt_(.*)$", s)`: anchored at the start;
`.*` cannot cross a newline and `$` also matches just before a final
newline. -/
def ctxstxtSearch (s : List Char) : Option (List Char) :=
  if "_ctxstxt_".toList.isPrefixOf s then
    let rest := s.drop 9
    if rest.contains (Char.ofNat 10) then
      if rest.getLast? = some (Char.ofNat 10) && !(rest.dropLast.contains (Char.ofNat 10)) then
        some rest.dropLast
      else none
    else some rest
  else none

/-- Embeds `ModuleCitrix.detect_citrix_product` (mod_citrix.py lines 42-64)
as a pure function of the current `device_name` field and the parsed title
tag; it returns the detection verdict and the `device_name` field after the
call. -/
def detect_citrix_product (device_name : String) (title : Option TitleTag) :
    Bool × String :=
  match title with
  | none => (false, device_name)
  | some tt =>
    match tt.classAttr with
    | some cls =>
      match cls.head? with
      | some c0 =>
        match ctxstxtSearch c0.toList with
        | some g => (true, String.mk g)
        | none => (false, device_name)
      | none => (false, device_name)
    | none =>
      if containsStr tt.text "Citrix" then (true, tt.text)
      else (false, device_name)

/-- The response fields `mod_citrix.py` reads. -/
structure CitrixResp where
  is_success : Bool
  title : Option TitleTag
  deriving DecidableEq, Repr

/-- The transport boundary seen by `mod_citrix.py` (`none` models a
`RequestError`). -/
def CitrixNet : Type := String → Bool → Option CitrixResp

/-- Mutable attribute state of a `ModuleCitrix` instance. -/
structure CitrixSt where
  finished : Bool
  network_errors : Nat
  device_name : String
  additions : List String
  deriving DecidableEq, Repr

/-- Embeds `ModuleCitrix.check_citrix` (mod_citrix.py lines 25-40); the
check list holds the single item `logon/LogonPoint/` and a `RequestError`
is counted and skipped by `continue`. -/
def check_citrix (net : CitrixNet) (url : String) (s : CitrixSt) : CitrixSt × Bool :=
  match net (urljoinRel url "logon/LogonPoint/") false with
  | none => ({ s with network_errors := s.network_errors + 1 }, false)
  | some resp =>
    if resp.is_success then
      ({ s with device_name := (detect_citrix_product s.device_name resp.title).2 },
       (detect_citrix_product s.device_name resp.title).1)
    else (s, false)

/-- The tail of `ModuleCitrix.attack`: a detection records one addition
naming the current `device_name`. -/
def citrixFinish (r : CitrixSt × Bool) : CitrixSt :=
  if r.2 then { r.1 with additions := r.1.additions ++ [r.1.device_name] }
  else r.1

/-- Embeds `ModuleCitrix.attack` (mod_citrix.py lines 66-94): `finished` is
set first; `detect_citrix_product` raises nothing, so the
`except RequestError` handler is the only failure path and the function is
total. -/
def citrix_attack (net : CitrixNet) (url : String) (s0 : CitrixSt) : CitrixSt :=
  citrixFinish (check_citrix net url { s0 with finished := true })

/-! ### ModuleWpEnum and ModuleSpipEnum (mod_wp_enum.py, mod_spip_enum.py) -/

/-- Embeds `ModuleWpEnum.must_attack` (mod_wp_enum.py lines 205-209):
false once `finished` is set or for a POST request, otherwise true exactly
when the request URL equals the persister's root URL. -/
def wp_must_attack (finished : Bool) (method url rootUrl : String) : Bool :=
  if finished || method == "POST" then false else url == rootUrl

/-- Embeds `ModuleSpipEnum.must_attack` (mod_spip_enum.py lines 71-75),
textually identical to the WordPress variant. -/
def spip_must_attack (finished : Bool) (method url rootUrl : String) : Bool :=
  if finished || method == "POST" then false else url == rootUrl

/-- Version-sort key of `mod_wp_enum.py` line 227: `x.split('.')`. -/
def verKey (s : String) : List String := s.splitOn "."

/-- Lexicographic Boolean order on split version keys (Python list
comparison on lists of strings). -/
def listLeStr : List String → List String → Bool
  | [], _ => true
  | _ :: _, [] => false
  | a :: as_, b :: bs =>
    if a == b then listLeStr as_ bs else decide (a < b)

/-- `sorted(versions, key=lambda x: x.split('.'))` — a stable merge sort on
the split keys, as in mod_wp_enum.py line 227 and mod_spip_enum.py line 93. -/
def sortVersions (vs : List String) : List String :=
  vs.mergeSort (fun a b => listLeStr (verKey a) (verKey b))

/-- Collaborators of the CMS attack methods.  `checkCms` abstracts
`check_wp`/`check_spip` (which swallow every exception and report only a
verdict plus incurred network errors); `rootOf` abstracts the inherited
`get_root_url` helper; `detectVersionsFound` is Modelled from the spec:
`cms_common.detect_version` (not under src/) accumulates the matched version
strings for a URL into the shared `versions` field. -/
structure CmsOracle where
  checkCms : String → Bool × Nat
  rootOf : String → String
  detectVersionsFound : String → List String

/-- Mutable attribute state of a CMS enumeration module instance. -/
structure CmsSt where
  finished : Bool
  network_errors : Nat
  versions : List String
  vulns : List String
  additions : List String
  deriving DecidableEq, Repr

/-- Embeds the `for url in target_url` loop shared by
`ModuleWpEnum.attack` (mod_wp_enum.py lines 221-229) and
`ModuleSpipEnum.attack` (mod_spip_enum.py lines 87-95): each URL is
checked, a hit triggers version detection followed by the sort, and the
loop breaks once versions were found.  Returns the state, the detection
flag and the URL bound to `request_to_root`. -/
def cms_targets_loop (o : CmsOracle) :
    List String → CmsSt → Bool → String → CmsSt × Bool × String
  | [], s, det, lastUrl => (s, det, lastUrl)
  | u :: rest, s, det, _ =>
    if (o.checkCms u).1 then
      if (sortVersions (s.versions ++ o.detectVersionsFound u)).isEmpty then
        cms_targets_loop o rest
          { s with network_errors := s.network_errors + (o.checkCms u).2,
                   versions := sortVersions (s.versions ++ o.detectVersionsFound u) } true u
      else
        ({ s with network_errors := s.network_errors + (o.checkCms u).2,
                  versions := sortVersions (s.versions ++ o.detectVersionsFound u) }, true, u)
    else
      cms_targets_loop o rest
        { s with network_errors := s.network_errors + (o.checkCms u).2 } det u

/-- The `target_url` list built at the start of the CMS attack methods:
the request URL, plus the root URL when they differ. -/
def cmsTargets (o : CmsOracle) (url : String) : List String :=
  if url != o.rootOf url then [url, o.rootOf url] else [url]

/-- The reporting tail shared by the CMS `attack` methods: one
`add_vuln_info` when versions were found, and one `add_addition` plus the
label-specific extras when the CMS was detected at all. -/
def cmsFinish (label : String) (extras : String → List String)
    (r : CmsSt × Bool × String) : CmsSt :=
  if r.2.1 then
    { r.1 with
      vulns := if r.1.versions.isEmpty then r.1.vulns else r.1.vulns ++ [label],
      additions := r.1.additions ++ [label] ++ extras r.2.2 }
  else
    { r.1 with
      vulns := if r.1.versions.isEmpty then r.1.vulns else r.1.vulns ++ [label] }

/-- Embeds `ModuleWpEnum.attack` (mod_wp_enum.py lines 211-263):
`finished` is set as the first action, before any network call; detection
and versions drive one `add_vuln_info` and one `add_addition`, and the
plugin/theme enumeration runs only when WordPress was detected (its
persister effects are abstracted into `addOns`). -/
def wp_attack (o : CmsOracle) (addOns : String → List String) (url : String)
    (s0 : CmsSt) : CmsSt :=
  cmsFinish "WordPress" addOns
    (cms_targets_loop o (cmsTargets o url) { s0 with finished := true } false url)

/-- Embeds `ModuleSpipEnum.attack` (mod_spip_enum.py lines 77-124), the same
control flow without plugin/theme enumeration. -/
def spip_attack (o : CmsOracle) (url : String) (s0 : CmsSt) : CmsSt :=
  cmsFinish "SPIP" (fun _ => [])
    (cms_targets_loop o (cmsTargets o url) { s0 with finished := true } false url)

/-! ### Class-level mutable accumulators (claim C8)

`ModuleWpEnum` and `ModuleSpipEnum` declare `versions = []` at class level
(mod_wp_enum.py line 44, mod_spip_enum.py line 40): one list object bound as
a class attribute.  Python attribute lookup reads the instance dictionary
first and falls back to the class attribute, while in-place mutation
(`self.versions.append(...)`, performed by `cms_common.detect_version`)
writes through to whichever list the lookup resolved — the shared class
list for any instance that never rebound the name. -/

/-- Heap of list objects; an address is an index into `cells`. -/
structure CmsHeap where
  cells : List (List String)
  deriving DecidableEq, Repr

/-- The class attribute `versions = []` binds cell 0 for every instance. -/
def classVersionsCell : Nat := 0

/-- Per-instance attribute dictionary entry for `versions`: `none` until an
assignment `self.versions = ...` rebinds the name on the instance. -/
structure CmsInstance where
  versionsRef : Option Nat
  deriving DecidableEq, Repr

/-- Python attribute lookup for `self.versions`: the instance dictionary
first, then the class attribute. -/
def versionsCellOf (inst : CmsInstance) : Nat :=
  inst.versionsRef.getD classVersionsCell

/-- Read `self.versions` through the lookup. -/
def readVersions (h : CmsHeap) (inst : CmsInstance) : List String :=
  h.cells.getD (versionsCellOf inst) []

/-- Modelled from the spec: one detection call of `cms_common.detect_version`
(not under src/) appending a matched version to `self.versions` in place —
the list object found by attribute lookup is mutated, not replaced. -/
def detect_version_append (h : CmsHeap) (inst : CmsInstance) (v : String) : CmsHeap :=
  let r := versionsCellOf inst
  { cells := h.cells.set r (h.cells.getD r [] ++ [v]) }

/-! ### Helper lemmas for the injection pipeline -/

theorem firstIdx_isSome_of_occ (hay n : List Char) (i : Nat) (hi : i ≤ hay.length)
    (h : occAt hay n i = true) : (firstIdx hay n).isSome = true := by
  unfold firstIdx
  have hmem : i ∈ (List.range (hay.length + 1)).filter (occAt hay n) := by
    rw [List.mem_filter]
    exact ⟨List.mem_range.mpr (Nat.lt_succ_of_le hi), h⟩
  cases hfl : (List.range (hay.length + 1)).filter (occAt hay n) with
  | nil => rw [hfl] at hmem; exact absurd hmem (List.not_mem_nil i)
  | cons a t => rfl

theorem isPrefixOf_append_right (n a b : List Char) (h : n.isPrefixOf a = true) :
    n.isPrefixOf (a ++ b) = true := by
  induction n generalizing a with
  | nil => simp [List.isPrefixOf]
  | cons c n ih =>
    cases a with
    | nil => exact absurd h (by simp [List.isPrefixOf])
    | cons x a =>
      simp only [List.cons_append, List.isPrefixOf] at h ⊢
      rcases Bool.and_eq_true_iff.mp h with ⟨h1, h2⟩
      exact Bool.and_eq_true_iff.mpr ⟨h1, ih a h2⟩

theorem drop_len_append (a b : List Char) : (a ++ b).drop a.length = b := by
  simp

theorem sig_isPrefixOf_template (k : ContextKind) :
    (templateFor k).signature.isPrefixOf (templateFor k).template = true := by
  cases k with
  | ATTRIBUTE_VALUE q => cases q <;> decide
  | PLAIN_TEXT => decide
  | TITLE_TEXT => decide
  | TAG_NAME => decide
  | PARTIAL_TAG_NAME => decide
  | SCRIPT_BODY => decide
  | COMMENT => decide
  | UNKNOWN => decide

/-- A page that reflects every injected value verbatim between fixed
surroundings never sets the FILTERED flag: the `<script` of the filter probe
survives in the response. -/
theorem filteredFlag_of_verbatim (page : Page) (pre post t1 : List Char)
    (hpage : ∀ v, page v = some (pre ++ v ++ post)) :
    filteredFlag page t1 = false := by
  have hocc : occAt (pre ++ ("<script".toList ++ t1) ++ post) "<script".toList pre.length = true := by
    unfold occAt
    rw [List.append_assoc, drop_len_append]
    exact isPrefixOf_append_right _ _ _ (isPrefixOf_append_right _ _ _ (by decide))
  have hs := firstIdx_isSome_of_occ _ _ _ (by simp) hocc
  rcases Option.isSome_iff_exists.mp hs with ⟨j, hj⟩
  unfold filteredFlag
  rw [hpage ("<script".toList ++ t1)]
  simp only [hj, Option.isNone_some, Bool.false_and]

/-- A page that reflects every injected value verbatim verifies any
candidate whose signature is a prefix of its template. -/
theorem verify_of_verbatim (page : Page) (pre post : List Char) (c : PayloadCandidate)
    (hpage : ∀ v, page v = some (pre ++ v ++ post))
    (hsig : c.signature.isPrefixOf c.template = true) :
    verify page c = true := by
  unfold verify
  rw [hpage c.template]
  apply firstIdx_isSome_of_occ _ _ pre.length (by simp)
  unfold occAt
  rw [List.append_assoc, drop_len_append]
  exact isPrefixOf_append_right _ _ _ hsig

/-- The per-parameter pipeline on a target that reflects the parameter
verbatim at a fixed spot: the probe is REFLECTED, the filter flag is off,
and the context's template verifies, producing exactly the Finding that
carries the template of the classified context. -/
theorem attack_unescaped (param : String) (page : Page) (pre post t1 t2 : List Char)
    (k : ContextKind)
    (hpage : ∀ v, page v = some (pre ++ v ++ post))
    (h1 : firstIdx (pre ++ t1 ++ post) t1 = some pre.length)
    (h2 : firstIdx (pre ++ t2 ++ post) t2 = some pre.length)
    (hctx1 : classify (pre ++ t1 ++ post) pre.length = k)
    (hctx2 : classify (pre ++ t2 ++ post) pre.length = k) :
    attackParam param page t1 t2 = some ⟨param, (templateFor k).template⟩ := by
  have h1' := h1
  have h2' := h2
  have hctx1' := hctx1
  have hctx2' := hctx2
  simp only [List.append_assoc] at h1' h2' hctx1' hctx2'
  have hprobe : probe page t1 t2 = .REFLECTED (pre ++ (t1 ++ post)) pre.length := by
    unfold probe
    rw [hpage t1, hpage t2]
    simp only [oracleCompare, tokenCompare, List.append_assoc]
    rw [h1', h2']
    simp [hctx1', hctx2']
  have hfilt := filteredFlag_of_verbatim page pre post t1 hpage
  have hver := verify_of_verbatim page pre post (templateFor k) hpage (sig_isPrefixOf_template k)
  simp [attackParam, attackFrom, hprobe, hctx1', hfilt, synthesize, List.find?, hver]

/-! ### Concrete witness targets for the injection pipeline -/

/-- First discriminant token used by the concrete witnesses. -/
def t1w : List Char := "qzwxec1234".toList

/-- Second discriminant token used by the concrete witnesses. -/
def t2w : List Char := "rfvtgb5678".toList

/-- Witness target reflecting one token inside the title and the other in
plain body text (structurally different contexts). -/
def pageMixW : Page := fun v =>
  some (if v = t1w then "<title>".toList ++ v ++ "</title>".toList else v)

/-- HTML entity encoding of one character (`<`, `>` and `&`). -/
def escChar (c : Char) : List Char :=
  if c = '<' then "&lt;".toList
  else if c = '>' then "&gt;".toList
  else if c = '&' then "&amp;".toList
  else [c]

/-- HTML entity encoding of a value. -/
def escape (l : List Char) : List Char :=
  l.foldr (fun c acc => escChar c ++ acc) []

/-- Witness target that reflects values inside the title but correctly
entity-encodes them. -/
def pageEscW : Page := fun v =>
  some ("<title>".toList ++ escape v ++ "</title>".toList)

/-- Witness target (`title_false_positive.php` shape) embedding the value
unescaped inside `<title>...</title>`. -/
def pageTitleW : Page := fun v =>
  some ("<html><head><title>".toList ++ v ++ "</title></head></html>".toList)

/-- The filter probe value carrying the literal `<script`. -/
def scriptProbeW : List Char := "<script".toList ++ t1w

/-- Witness target (`script_tag_filter.php` shape): values reflect in plain
text but the literal `<script` is stripped from reflections, while the
`<svg` vector passes through. -/
def pageFilterW : Page := fun v =>
  if v = t1w then some ("<p>".toList ++ t1w ++ "</p>".toList)
  else if v = t2w then some ("<p>".toList ++ t2w ++ "</p>".toList)
  else if v = scriptProbeW then some ("<p>".toList ++ t1w ++ "</p>".toList)
  else if v = svgCandidate.template then
    some ("<p>".toList ++ svgCandidate.template ++ "</p>".toList)
  else some "<p></p>".toList

/-- Witness target (`attr_quote_escape.php` shape): value inside a
single-quoted attribute. -/
def pageAttrSingleW : Page := fun v =>
  some (("<pre class=".toList ++ [squote]) ++ v ++ ([squote] ++ ">x</pre>".toList))

/-- Witness target (`attr_escape.php` shape): value inside an unquoted
attribute. -/
def pageAttrNoneW : Page := fun v =>
  some ("<input state=".toList ++ v ++ " />".toList)

/-- Witness target (`tag_name_escape.php` shape): value used as a tag name. -/
def pageTagW : Page := fun v =>
  some ("<".toList ++ v ++ ">hello".toList)

/-- Witness target (`partial_tag_name_escape.php` shape): value in a tag
name slot preceded by a stray unmatched `/>` fragment. -/
def pagePartialW : Page := fun v =>
  some ("<em>done /><".toList ++ v ++ ">x".toList)

/-! ### Claims C1-C6: the injection detection engine -/

/-- C1: for every parameter whose two-token discriminant probe finds the
tokens reflected at different structural contexts, or finds only one of the
two tokens in its response, the orchestrator emits no Finding for that
parameter. -/
theorem probe_guard_no_finding (param : String) (page : Page) (t1 t2 b1 b2 : List Char)
    (hb1 : page t1 = some b1) (hb2 : page t2 = some b2)
    (hskip :
      (∃ i1 i2, firstIdx b1 t1 = some i1 ∧ firstIdx b2 t2 = some i2 ∧
        classify b1 i1 ≠ classify b2 i2)
      ∨ ((firstIdx b1 t1).isSome = true ∧ firstIdx b2 t2 = none)
      ∨ (firstIdx b1 t1 = none ∧ (firstIdx b2 t2).isSome = true)) :
    attackParam param page t1 t2 = none := by
  have hpr : probe page t1 t2 = .INCONCLUSIVE := by
    unfold probe
    rw [hb1, hb2]
    simp only [oracleCompare, tokenCompare]
    rcases hskip with ⟨i1, i2, hi1, hi2, hne⟩ | ⟨h1s, h2n⟩ | ⟨h1n, h2s⟩
    · rw [hi1, hi2]
      simp [hne]
    · rcases Option.isSome_iff_exists.mp h1s with ⟨i1, hi1⟩
      rw [hi1, h2n]
    · rcases Option.isSome_iff_exists.mp h2s with ⟨i2, hi2⟩
      rw [h1n, hi2]
  simp [attackParam, attackFrom, hpr]

/-- Witness for C1: one token reflects inside the title, the other in plain
body text — no Finding. -/
theorem probe_guard_no_finding_witness :
    attackParam "fixed" pageMixW t1w t2w = none := by
  apply probe_guard_no_finding "fixed" pageMixW t1w t2w
    ("<title>".toList ++ t1w ++ "</title>".toList) t2w (by decide) (by decide)
  exact Or.inl ⟨7, 0, by decide, by decide, by decide⟩

/-- C2: a Finding is produced only from a verified reflection — whenever the
orchestrator emits one, the probe was REFLECTED and some synthesized
candidate passed the verifier, the Finding carrying that candidate's
payload; and when the reflection is REFLECTED but every candidate fails
verification (for instance because every signature appears only
entity-encoded), no Finding is produced. -/
theorem finding_requires_verification (param : String) (page : Page) (t1 t2 : List Char) :
    (∀ f, attackParam param page t1 t2 = some f →
      ∃ b i c, probe page t1 t2 = .REFLECTED b i ∧
        c ∈ synthesize (classify b i) (filteredFlag page t1) ∧
        verify page c = true ∧ f.value = c.template)
    ∧ (∀ b i, probe page t1 t2 = .REFLECTED b i →
        (∀ c, c ∈ synthesize (classify b i) (filteredFlag page t1) → verify page c = false) →
        attackParam param page t1 t2 = none) := by
  constructor
  · intro f hf
    unfold attackParam at hf
    cases hpr : probe page t1 t2 with
    | NOT_REFLECTED => rw [hpr] at hf; simp [attackFrom] at hf
    | INCONCLUSIVE => rw [hpr] at hf; simp [attackFrom] at hf
    | REFLECTED b i =>
      rw [hpr] at hf
      simp only [attackFrom] at hf
      cases hfind : (synthesize (classify b i) (filteredFlag page t1)).find?
          (fun c => verify page c) with
      | none => rw [hfind] at hf; simp at hf
      | some c =>
        rw [hfind] at hf
        simp only [Option.some.injEq] at hf
        refine ⟨b, i, c, rfl, List.mem_of_find?_eq_some hfind, List.find?_some hfind, ?_⟩
        rw [← hf]
  · intro b i hpr hall
    have hnone : (synthesize (classify b i) (filteredFlag page t1)).find?
        (fun c => verify page c) = none := by
      rw [List.find?_eq_none]
      intro c hc
      simp [hall c hc]
    simp [attackParam, attackFrom, hpr, hnone]

/-- Witness for C2: a target that entity-encodes its reflections yields a
REFLECTED verdict whose every candidate fails verification, so no Finding. -/
theorem finding_requires_verification_witness :
    attackParam "title" pageEscW t1w t2w = none := by
  apply (finding_requires_verification "title" pageEscW t1w t2w).2
    ("<title>qzwxec1234</title>".toList) 7 (by decide)
  decide

/-- C3: a request whose parameter value is embedded unescaped inside
`<title>...</title>` produces a Finding naming that parameter whose
verified value starts with the verbatim string `</title>`. -/
theorem title_breakout_finding (param : String) (page : Page) (pre post t1 t2 : List Char)
    (hpage : ∀ v, page v = some (pre ++ v ++ post))
    (h1 : firstIdx (pre ++ t1 ++ post) t1 = some pre.length)
    (h2 : firstIdx (pre ++ t2 ++ post) t2 = some pre.length)
    (hctx1 : classify (pre ++ t1 ++ post) pre.length = ContextKind.TITLE_TEXT)
    (hctx2 : classify (pre ++ t2 ++ post) pre.length = ContextKind.TITLE_TEXT) :
    ∃ f, attackParam param page t1 t2 = some f ∧ f.param = param ∧
      "</title>".toList.isPrefixOf f.value = true := by
  have hpref : "</title>".toList.isPrefixOf (templateFor ContextKind.TITLE_TEXT).template = true := by
    decide
  exact ⟨⟨param, (templateFor ContextKind.TITLE_TEXT).template⟩,
    attack_unescaped param page pre post t1 t2 ContextKind.TITLE_TEXT hpage h1 h2 hctx1 hctx2,
    rfl, hpref⟩

/-- Witness for C3 at a concrete title-reflecting target. -/
theorem title_breakout_finding_witness :
    ∃ f, attackParam "title" pageTitleW t1w t2w = some f ∧ f.param = "title" ∧
      "</title>".toList.isPrefixOf f.value = true :=
  title_breakout_finding "title" pageTitleW
    "<html><head><title>".toList "</title></head></html>".toList t1w t2w
    (fun _ => rfl) (by decide) (by decide) (by decide) (by decide)

/-- C4: when the target strips the literal `<script` from reflections (the
FILTERED flag is set, whatever the surrounding context), the engine
substitutes the non-`<script` vector: the Finding's value is the `<svg`
vector, which starts with `<svg`, and the substitution takes priority over
the tag-based template of every classified context. -/
theorem filtered_svg_substitution (param : String) (page : Page) (t1 t2 b : List Char)
    (i : Nat)
    (hrefl : probe page t1 t2 = .REFLECTED b i)
    (hfilt : filteredFlag page t1 = true)
    (hver : verify page svgCandidate = true) :
    attackParam param page t1 t2 = some ⟨param, svgCandidate.template⟩
    ∧ "<svg".toList.isPrefixOf svgCandidate.template = true
    ∧ ∀ k, synthesize k true = [svgCandidate] := by
  refine ⟨?_, by decide, fun k => rfl⟩
  simp [attackParam, attackFrom, hrefl, hfilt, synthesize, List.find?, hver]

/-- Witness for C4 at a concrete `<script`-stripping target. -/
theorem filtered_svg_substitution_witness :
    attackParam "name" pageFilterW t1w t2w = some ⟨"name", svgCandidate.template⟩
    ∧ "<svg".toList.isPrefixOf svgCandidate.template = true
    ∧ ∀ k, synthesize k true = [svgCandidate] :=
  filtered_svg_substitution "name" pageFilterW t1w t2w
    ("<p>".toList ++ t1w ++ "</p>".toList) 3 (by decide) (by decide) (by decide)

/-- The breakout signature a quote style calls for (spec section 4.3). -/
def attrBreakoutSig : QuoteStyle → List Char
  | .single => squote :: "></pre>".toList
  | .double => "\"></pre>".toList
  | .qnone => "><script>".toList

/-- C5: a parameter value reflected inside an attribute value yields a
Finding whose verified value starts with the breakout prefix determined by
the quote style: `'></pre>` for single quotes, `"></pre>` for double
quotes, `><script>` for an unquoted attribute. -/
theorem attr_breakout_finding (param : String) (page : Page) (pre post t1 t2 : List Char)
    (q : QuoteStyle)
    (hpage : ∀ v, page v = some (pre ++ v ++ post))
    (h1 : firstIdx (pre ++ t1 ++ post) t1 = some pre.length)
    (h2 : firstIdx (pre ++ t2 ++ post) t2 = some pre.length)
    (hctx1 : classify (pre ++ t1 ++ post) pre.length = ContextKind.ATTRIBUTE_VALUE q)
    (hctx2 : classify (pre ++ t2 ++ post) pre.length = ContextKind.ATTRIBUTE_VALUE q) :
    ∃ f, attackParam param page t1 t2 = some f ∧ f.param = param ∧
      (attrBreakoutSig q).isPrefixOf f.value = true := by
  have hpref : ∀ q2, (attrBreakoutSig q2).isPrefixOf
      (templateFor (ContextKind.ATTRIBUTE_VALUE q2)).template = true := by
    intro q2
    cases q2 <;> decide
  exact ⟨⟨param, (templateFor (ContextKind.ATTRIBUTE_VALUE q)).template⟩,
    attack_unescaped param page pre post t1 t2 (ContextKind.ATTRIBUTE_VALUE q)
      hpage h1 h2 hctx1 hctx2,
    rfl, hpref q⟩

/-- Witness for C5 at a concrete single-quoted attribute target. -/
theorem attr_breakout_finding_witness :
    ∃ f, attackParam "class" pageAttrSingleW t1w t2w = some f ∧ f.param = "class" ∧
      (attrBreakoutSig QuoteStyle.single).isPrefixOf f.value = true :=
  attr_breakout_finding "class" pageAttrSingleW
    ("<pre class=".toList ++ [squote]) ([squote] ++ ">x</pre>".toList) t1w t2w
    QuoteStyle.single (fun _ => rfl) (by decide) (by decide) (by decide) (by decide)

/-- C6: a value reflected as a tag name yields a Finding whose verified
value starts with `script>`; a value positioned after a stray unmatched
tag-closing fragment (PARTIAL_TAG_NAME) yields a Finding whose value starts
with `/><script>`. -/
theorem tag_breakout_finding (param : String) (page : Page) (pre post t1 t2 : List Char)
    (k : ContextKind)
    (hk : k = ContextKind.TAG_NAME ∨ k = ContextKind.PARTIAL_TAG_NAME)
    (hpage : ∀ v, page v = some (pre ++ v ++ post))
    (h1 : firstIdx (pre ++ t1 ++ post) t1 = some pre.length)
    (h2 : firstIdx (pre ++ t2 ++ post) t2 = some pre.length)
    (hctx1 : classify (pre ++ t1 ++ post) pre.length = k)
    (hctx2 : classify (pre ++ t2 ++ post) pre.length = k) :
    ∃ f, attackParam param page t1 t2 = some f ∧ f.param = param ∧
      (k = ContextKind.TAG_NAME → "script>".toList.isPrefixOf f.value = true) ∧
      (k = ContextKind.PARTIAL_TAG_NAME → "/><script>".toList.isPrefixOf f.value = true) := by
  have hp1 : "script>".toList.isPrefixOf (templateFor ContextKind.TAG_NAME).template = true := by
    decide
  have hp2 : "/><script>".toList.isPrefixOf
      (templateFor ContextKind.PARTIAL_TAG_NAME).template = true := by
    decide
  refine ⟨⟨param, (templateFor k).template⟩,
    attack_unescaped param page pre post t1 t2 k hpage h1 h2 hctx1 hctx2, rfl, ?_, ?_⟩
  · intro hkk
    subst hkk
    exact hp1
  · intro hkk
    subst hkk
    exact hp2

/-- Witness for C6 at a concrete tag-name target. -/
theorem tag_breakout_finding_witness :
    ∃ f, attackParam "tag" pageTagW t1w t2w = some f ∧ f.param = "tag" ∧
      (ContextKind.TAG_NAME = ContextKind.TAG_NAME →
        "script>".toList.isPrefixOf f.value = true) ∧
      (ContextKind.TAG_NAME = ContextKind.PARTIAL_TAG_NAME →
        "/><script>".toList.isPrefixOf f.value = true) :=
  tag_breakout_finding "tag" pageTagW "<".toList ">hello".toList t1w t2w
    ContextKind.TAG_NAME (Or.inl rfl) (fun _ => rfl)
    (by decide) (by decide) (by decide) (by decide)

/-! ### Claims C7-C10: the fingerprinting modules -/

/-- A target whose probed paths all answer 200 with a non-javascript
content type and a body whose `<title>` tag has no string content
(for instance `<title></title>` or `<title><b>x</b></title>`):
BeautifulSoup gives `soup.title.string is None`. -/
def fortiNetTitleNone : FortiNet := fun _ _ =>
  .ok ⟨true, false, ⟨some none, [], none⟩⟩

/-- C7 (code bug): on a response whose title tag has no string content,
`ModuleForti.detect_forti_product` calls
`self.fortinet_pattern.search(title_tag.string)` with `None`, raising
`TypeError` — which the `except RequestError` handler of `attack()` does
not catch, so the exception propagates out of `attack()` instead of being
counted as a network error. -/
theorem forti_attack_raises_typeError_on_titleless_string :
    forti_attack fortiNetTitleNone "http://target/"
        ⟨false, 0, "Fortinet", "", []⟩ =
      .exc .typeError ⟨true, 0, "Fortinet", "", []⟩ := by
  decide

/-- C8: the fingerprinting modules accumulate results in class-level
mutable fields.  For the CMS modules' `versions = []`: two instances with
untouched instance dictionaries resolve the attribute to the same class
list, so an in-place append performed during one instance's detection call
is seen by that instance's subsequent calls and equally by the other
instance — concurrent orchestrator instances are not isolated.  For the
network-device modules' `device_name`: the value is communicated through
the mutable field rather than the call chain, and a later detection call
that detects nothing leaves the previously written value in place. -/
theorem class_level_accumulators_shared (vs0 : List String) (h0 : CmsHeap)
    (A B : CmsInstance) (v : String)
    (hc : h0.cells = [vs0]) (hA : A.versionsRef = none) (hB : B.versionsRef = none) :
    readVersions h0 A = readVersions h0 B
    ∧ readVersions (detect_version_append h0 A v) A = vs0 ++ [v]
    ∧ readVersions (detect_version_append h0 A v) B = vs0 ++ [v]
    ∧ (∀ dn tt, tt.classAttr = none → containsStr tt.text "Citrix" = false →
        (detect_citrix_product dn (some tt)).2 = dn) := by
  refine ⟨?_, ?_, ?_, ?_⟩
  · simp [readVersions, versionsCellOf, hA, hB]
  · simp [readVersions, detect_version_append, versionsCellOf, classVersionsCell, hA, hc]
  · simp [readVersions, detect_version_append, versionsCellOf, classVersionsCell, hA, hB, hc]
  · intro dn tt h1 h2
    simp [detect_citrix_product, h1, h2]

/-- Witness for C8: a version appended through instance A's detection call
is what a distinct fresh instance B reads afterwards. -/
theorem class_level_accumulators_shared_witness :
    readVersions (detect_version_append ⟨[[]]⟩ ⟨none⟩ "6.4.2") ⟨none⟩ = [] ++ ["6.4.2"] :=
  (class_level_accumulators_shared [] ⟨[[]]⟩ ⟨none⟩ ⟨none⟩ "6.4.2" rfl rfl rfl).2.2.1

/-! Finished-flag preservation through every phase of the embedded attack
methods: no code path after the opening `self.finished = True` of the
`attack()` bodies ever writes the flag again. -/

theorem detect_forti_product_finished (net : FortiNet) (url : String) (s : FortiSt) :
    finishedOf (detect_forti_product net url s) = s.finished := by
  unfold detect_forti_product
  split
  · rfl
  · split
    · rfl
    · rfl
    · split <;> rfl

theorem forti_items_loop_finished (net : FortiNet) (url : String) (items : List String) :
    ∀ s, finishedOf (forti_items_loop net url items s) = s.finished := by
  induction items with
  | nil => intro s; rfl
  | cons item rest ih =>
    intro s
    unfold forti_items_loop
    split
    · exact ih _
    · split
      · split
        · rfl
        · split
          · rfl
          · have hd := detect_forti_product_finished net (urljoinRel url item) s
            split <;> rename_i hdp <;> rw [hdp] at hd <;> exact hd
      · exact ih s

theorem forti_tags_loop_finished (tags : List (Option String × String)) :
    ∀ s, finishedOf (forti_tags_loop tags s) = s.finished := by
  induction tags with
  | nil => intro s; rfl
  | cons tg rest ih =>
    intro s
    obtain ⟨tagString, tagText⟩ := tg
    unfold forti_tags_loop
    split
    · split
      · rfl
      · exact ih s
    · exact ih s

theorem forti_manager_loop_finished (title : Option (Option String)) (div : Option String)
    (names : List String) :
    ∀ s, finishedOf (forti_manager_loop title div names s) = s.finished := by
  induction names with
  | nil => intro s; rfl
  | cons dn rest ih =>
    intro s
    unfold forti_manager_loop
    split
    · rfl
    · split
      · rfl
      · split
        · split
          · rfl
          · exact ih s
        · exact ih s
    · split
      · split
        · rfl
        · exact ih s
      · exact ih s

theorem forti_phase4_finished (net : FortiNet) (url : String) (s : FortiSt) :
    finishedOf (forti_phase4 net url s) = s.finished := by
  unfold forti_phase4
  split
  · rfl
  · split
    · exact forti_manager_loop_finished _ _ _ s
    · rfl

theorem forti_phase3_finished (net : FortiNet) (url : String) (s : FortiSt) :
    finishedOf (forti_phase3 net url s) = s.finished := by
  unfold forti_phase3
  split
  · rfl
  · rename_i xg resp heq
    split
    · have ht := forti_tags_loop_finished resp.doc.tagStrings s
      split
      · rename_i b s2 htl
        rw [htl] at ht
        exact ht
      · rename_i s2 htl
        rw [htl] at ht
        rw [forti_phase4_finished]
        exact ht
      · rename_i e s2 htl
        rw [htl] at ht
        exact ht
    · exact forti_phase4_finished net url s

theorem forti_phase2_finished (net : FortiNet) (url : String) (s : FortiSt) :
    finishedOf (forti_phase2 net url s) = s.finished := by
  unfold forti_phase2
  split
  · rfl
  · split
    · split
      · split
        · rfl
        · exact forti_phase3_finished net url s
      · exact forti_phase3_finished net url s
    · exact forti_phase3_finished net url s

theorem check_forti_finished (net : FortiNet) (url : String) (s : FortiSt) :
    finishedOf (check_forti net url s) = s.finished := by
  unfold check_forti
  have hl := forti_items_loop_finished net url fortiCheckList s
  split
  · rename_i b s2 hil
    rw [hil] at hl
    exact hl
  · rename_i s2 hil
    rw [hil] at hl
    rw [forti_phase2_finished]
    exact hl
  · rename_i e s2 hil
    rw [hil] at hl
    exact hl

theorem fortiFinish_finished (r : PyResult Bool) :
    finishedOf (fortiFinish r) = finishedOf r := by
  cases r with
  | ok b s => cases b <;> rfl
  | exc e s => cases e <;> rfl

theorem cms_targets_loop_finished (o : CmsOracle) (l : List String) :
    ∀ s det lastUrl, (cms_targets_loop o l s det lastUrl).1.finished = s.finished := by
  induction l with
  | nil => intro s det lastUrl; rfl
  | cons u rest ih =>
    intro s det lastUrl
    unfold cms_targets_loop
    split
    · split
      · exact ih _ _ _
      · rfl
    · exact ih _ _ _

theorem cmsFinish_finished (label : String) (extras : String → List String)
    (r : CmsSt × Bool × String) : (cmsFinish label extras r).finished = r.1.finished := by
  unfold cmsFinish
  split <;> rfl

theorem check_citrix_finished (net : CitrixNet) (url : String) (s : CitrixSt) :
    (check_citrix net url s).1.finished = s.finished := by
  unfold check_citrix
  split
  · rfl
  · split <;> rfl

theorem citrixFinish_finished (r : CitrixSt × Bool) :
    (citrixFinish r).finished = r.1.finished := by
  unfold citrixFinish
  split <;> rfl

/-- C9: every fingerprinting module's `attack()` sets `finished` to true as
its first action and never resets it, whatever the network outcomes —
including the exception-propagating paths — so one instance performs at
most one attack pass; and `ModuleWpEnum.must_attack` /
`ModuleSpipEnum.must_attack` return false once `finished` is set, always
return false for POST requests, and return true only when the request URL
equals the persister's root URL. -/
theorem must_attack_single_pass :
    (∀ m u r, wp_must_attack true m u r = false)
    ∧ (∀ fl u r, wp_must_attack fl "POST" u r = false)
    ∧ (∀ fl m u r, wp_must_attack fl m u r = true → fl = false ∧ m ≠ "POST" ∧ u = r)
    ∧ (∀ m u r, spip_must_attack true m u r = false)
    ∧ (∀ fl u r, spip_must_attack fl "POST" u r = false)
    ∧ (∀ fl m u r, spip_must_attack fl m u r = true → fl = false ∧ m ≠ "POST" ∧ u = r)
    ∧ (∀ o a u s0, (wp_attack o a u s0).finished = true)
    ∧ (∀ o u s0, (spip_attack o u s0).finished = true)
    ∧ (∀ net u s0, finishedOf (forti_attack net u s0) = true)
    ∧ (∀ net u s0, (citrix_attack net u s0).finished = true) := by
  refine ⟨?_, ?_, ?_, ?_, ?_, ?_, ?_, ?_, ?_, ?_⟩
  · intro m u r; simp [wp_must_attack]
  · intro fl u r; simp [wp_must_attack]
  · intro fl m u r h
    unfold wp_must_attack at h
    by_cases hc : (fl || m == "POST") = true
    · rw [if_pos hc] at h; exact absurd h (by simp)
    · rw [if_neg hc] at h
      rcases Bool.or_eq_false_iff.mp (Bool.eq_false_iff.mpr hc) with ⟨hf, hp⟩
      refine ⟨hf, ?_, eq_of_beq h⟩
      intro hm; rw [hm] at hp; simp at hp
  · intro m u r; simp [spip_must_attack]
  · intro fl u r; simp [spip_must_attack]
  · intro fl m u r h
    unfold spip_must_attack at h
    by_cases hc : (fl || m == "POST") = true
    · rw [if_pos hc] at h; exact absurd h (by simp)
    · rw [if_neg hc] at h
      rcases Bool.or_eq_false_iff.mp (Bool.eq_false_iff.mpr hc) with ⟨hf, hp⟩
      refine ⟨hf, ?_, eq_of_beq h⟩
      intro hm; rw [hm] at hp; simp at hp
  · intro o a u s0
    unfold wp_attack
    rw [cmsFinish_finished, cms_targets_loop_finished]
  · intro o u s0
    unfold spip_attack
    rw [cmsFinish_finished, cms_targets_loop_finished]
  · intro net u s0
    unfold forti_attack
    rw [fortiFinish_finished, check_forti_finished]
  · intro net u s0
    unfold citrix_attack
    rw [citrixFinish_finished, check_citrix_finished]

/-- Witness for C9: a concrete GET request at the root URL passes the
`must_attack` gate, so its hypotheses are satisfiable. -/
theorem must_attack_single_pass_witness :
    false = false ∧ "GET" ≠ "POST" ∧ "http://a/" = "http://a/" :=
  must_attack_single_pass.2.2.1 false "GET" "http://a/" "http://a/" (by decide)

/-- C10: in `ModuleCitrix.detect_citrix_product`, whenever the title tag
carries a class attribute the outcome is decided solely by whether the
first class token matches `^_ctxstxt_(.*)$` — independent of the title
text, setting `device_name` to the captured group on a match and returning
false otherwise (also when the token list is empty) — and a detection can
then only come from that pattern, never from the `"Citrix" in title`
fallback, which is reachable only when the title tag has no class
attribute at all. -/
theorem citrix_class_decides (dn : String) (tt : TitleTag) (cls : List String)
    (h : tt.classAttr = some cls) :
    (∀ text2, detect_citrix_product dn (some ⟨some cls, text2⟩) =
      detect_citrix_product dn (some tt))
    ∧ (∀ c0, cls.head? = some c0 →
        detect_citrix_product dn (some tt) =
          (match ctxstxtSearch c0.toList with
           | some g => (true, String.mk g)
           | none => (false, dn)))
    ∧ (cls.head? = none → detect_citrix_product dn (some tt) = (false, dn))
    ∧ ((detect_citrix_product dn (some tt)).1 = true →
        ∃ c0 g, cls.head? = some c0 ∧ ctxstxtSearch c0.toList = some g) := by
  obtain ⟨ca, text⟩ := tt
  simp only [TitleTag.mk.injEq] at h
  subst h
  refine ⟨fun text2 => rfl, ?_, ?_, ?_⟩
  · intro c0 hc0
    simp only [detect_citrix_product, hc0]
  · intro hc0
    simp [detect_citrix_product, hc0]
  · intro hdet
    cases hc0 : cls.head? with
    | none => simp [detect_citrix_product, hc0] at hdet
    | some c0 =>
      cases hg : ctxstxtSearch c0.toList with
      | none =>
        simp only [detect_citrix_product, hc0] at hdet
        rw [hg] at hdet
        simp at hdet
      | some g => exact ⟨c0, g, rfl, hg⟩

/-- Witness for C10: a title tag classed `_ctxstxt_NetScaler` decides the
detection from the class alone. -/
theorem citrix_class_decides_witness :
    detect_citrix_product "Citrix" (some ⟨some ["_ctxstxt_NetScaler"], "welcome"⟩) =
      (match ctxstxtSearch "_ctxstxt_NetScaler".toList with
       | some g => (true, String.mk g)
       | none => (false, "Citrix")) :=
  (citrix_class_decides "Citrix" ⟨some ["_ctxstxt_NetScaler"], "welcome"⟩
    ["_ctxstxt_NetScaler"] rfl).2.1 "_ctxstxt_NetScaler" rfl

end Wapiti
